import Mathlib

/-
Verification development for the certificate / key / PKCS7 helper library
(package crypto, file helpers.go).

The library's collaborators (the RSA key generator, the DER/ASN.1
certificate builder and parser, the legacy PEM encryption cipher, the
pkcs7 engine) are consumed as capabilities; they are modelled here as
environment records whose contractual properties appear as theorem
hypotheses, while the library's own control flow is translated directly.

Conventions:
  * Go time instants and durations are nanosecond counts, modelled as Int;
    Go duration arithmetic is 64-bit two's-complement, modelled by wrap64.
  * Go errors are their message strings; a Go (value, error) pair where the
    value is nil on failure is an Except String value.
  * Byte strings are List Nat.
-/

namespace Micromdm

/-- Whether the first character list leads the second (is an initial run
of it). -/
def charsLeadWith : List Char → List Char → Bool
  | [], _ => true
  | _ :: _, [] => false
  | p :: ps, c :: cs => p == c && charsLeadWith ps cs

/-- Whether pat occurs as a contiguous run inside s. -/
def charsContain : List Char → List Char → Bool
  | [], pat => charsLeadWith pat []
  | c :: rest, pat => charsLeadWith pat (c :: rest) || charsContain rest pat

/-- strings.Contains: whether pat occurs as a substring of s. -/
def stringContains (s pat : String) : Bool :=
  charsContain s.data pat.data

/-- strings.HasPrefix: whether p leads s. -/
def stringStartsWith (s p : String) : Bool :=
  charsLeadWith p.data s.data

/-- Reduction of a mathematical integer to the 64-bit two's-complement
value Go arithmetic on int64 (time.Duration) produces. -/
def wrap64 (n : Int) : Int :=
  if n % 18446744073709551616 < 9223372036854775808 then
    n % 18446744073709551616
  else
    n % 18446744073709551616 - 18446744073709551616

theorem wrap64_eq_self (n : Int)
    (hlo : -9223372036854775808 ≤ n) (hhi : n < 9223372036854775808) :
    wrap64 n = n := by
  unfold wrap64
  split <;> omega

/- ---------------------------------------------------------------------
   SkewTolerantVerifier (PKCS7Verifier.Verify)
   --------------------------------------------------------------------- -/

/-- Certificates offered to chain validation; the Go call site only ever
distinguishes a nil truststore from a supplied one. -/
abbrev TrustStore := List Nat

/-- The pkcs7 collaborator: a parsed signed envelope exposing
VerifyWithChainAtTime(truststore, t) -> error (none = success).
The Go call passes nil for the truststore, modelled as Option.none. -/
structure PKCS7 where
  verifyWithChainAtTime : Option TrustStore → Int → Option String

/-- The substring the Go code matches to recognise a validity-window
failure of the pkcs7 engine. -/
def validityWindowFragment : String := "is outside of certificate validity"

/-- PKCS7Verifier: verifies PKCS7 objects with a configurable clock skew. -/
structure PKCS7Verifier where
  MaxSkew : Int

/-- PKCS7Verifier.Verify. The two reads of time.Now() are the parameters
now1 (first attempt) and now2 (retry). The first attempt runs at
now1 + MaxSkew with a nil truststore; on an error whose text holds the
validity-window fragment it retries once at now2 - MaxSkew, otherwise the
first error (or success) is final. -/
def PKCS7Verifier.Verify (v : PKCS7Verifier) (p7 : PKCS7) (now1 now2 : Int) :
    Option String :=
  match p7.verifyWithChainAtTime none (now1 + v.MaxSkew) with
  | none => none
  | some e =>
    if stringContains e validityWindowFragment then
      p7.verifyWithChainAtTime none (now2 - v.MaxSkew)
    else some e

/- ---------------------------------------------------------------------
   SelfSignedIssuer (SimpleSelfSignedRSAKeypair)
   --------------------------------------------------------------------- -/

/-- An RSA private key as handed out by the rsa collaborator; its internal
structure is outside this core, so it is an abstract token. -/
abbrev RSAKey := Nat

/-- A subject attribute (pkix.AttributeTypeAndValue) value: the Go code
only distinguishes values that are strings from values that are not. -/
inductive AttrValue where
  | text (s : String)
  | nonText
  deriving DecidableEq

/-- pkix.AttributeTypeAndValue: an ASN.1 object identifier paired with a
value. -/
structure AttributeTypeAndValue where
  typ : List Nat
  value : AttrValue
  deriving DecidableEq

/-- The x509.Certificate template filled in by SimpleSelfSignedRSAKeypair
(the fields the Go code sets). Times are nanosecond instants. -/
structure CertTemplate where
  serialNumber : Int
  subjectCommonName : String
  notBefore : Int
  notAfter : Int
  keyUsage : Nat
  extKeyUsage : List Nat
  basicConstraintsValid : Bool
  dnsNames : List String
  deriving DecidableEq

/-- DER certificate bytes produced by the x509 collaborator; the encoding
itself is out of scope, so the bytes are modelled by the template content
they encode. -/
abbrev CertBytes := CertTemplate

/-- A parsed x509.Certificate: the fields this library reads
(validity window and the subject attribute list Subject.Names). -/
structure Certificate where
  serialNumber : Int
  subjectCommonName : String
  notBefore : Int
  notAfter : Int
  subjectNames : List AttributeTypeAndValue
  deriving DecidableEq

/-- The collaborators SimpleSelfSignedRSAKeypair consumes:
rsa.GenerateKey, rand.Int over [0, 2^128) (GenerateRandomCertificateSerialNumber),
x509.CreateCertificate and x509.ParseCertificate. -/
structure GenEnv where
  generateKey : Except String RSAKey
  generateSerial : Except String Int
  createCertificate : CertTemplate → RSAKey → Except String CertBytes
  parseCertificate : CertBytes → Except String Certificate

/-- time.Duration(days) * 24 * time.Hour: two int64 multiplications, each
wrapping as Go int64 arithmetic does. -/
def durationDays (days : Int) : Int :=
  wrap64 (wrap64 (days * 24) * 3600000000000)

/-- x509.KeyUsageKeyEncipherment (4) combined with
x509.KeyUsageDigitalSignature (1). -/
def keyUsageKeyEnciphermentDigitalSignature : Nat := 5

/-- x509.ExtKeyUsageServerAuth. -/
def extKeyUsageServerAuth : Nat := 1

/-- SimpleSelfSignedRSAKeypair(cn, days). Go's named results (key, cert,
err) are returned at every exit exactly as the source does, so a failing
step still returns whatever the earlier steps bound: the triple is
(key-or-nil, cert-or-nil, err-or-nil). timeNow is the time.Now() reading. -/
def SimpleSelfSignedRSAKeypair (env : GenEnv) (cn : String) (days : Int)
    (timeNow : Int) : Option RSAKey × Option Certificate × Option String :=
  match env.generateKey with
  | .error e => (none, none, some e)
  | .ok key =>
    match env.generateSerial with
    | .error e => (some key, none, some e)
    | .ok serialNumber =>
      let template : CertTemplate :=
        { serialNumber := serialNumber
          subjectCommonName := cn
          notBefore := timeNow
          notAfter := timeNow + durationDays days
          keyUsage := keyUsageKeyEnciphermentDigitalSignature
          extKeyUsage := [extKeyUsageServerAuth]
          basicConstraintsValid := true
          dnsNames := [cn] }
      match env.createCertificate template key with
      | .error e => (some key, none, some e)
      | .ok certBytes =>
        match env.parseCertificate certBytes with
        | .error e => (some key, none, some e)
        | .ok cert => (some key, some cert, none)

/- ---------------------------------------------------------------------
   KeyMaterialCodec: PEM scanning (ReadPEMCertificatesFile) and the RSA
   key block reader/writer.
   --------------------------------------------------------------------- -/

/-- pem.Block: type label, headers, payload bytes. -/
structure PEMBlock where
  typ : String
  headers : List (String × String)
  bytes : List Nat
  deriving DecidableEq

/-- A segment of the input byte stream as pem.Decode sees it: either a
well-formed armored block, or a run of bytes in which pem.Decode finds no
block (garbage, including malformed armor). -/
inductive Seg where
  | block (b : PEMBlock)
  | garbage
  deriving DecidableEq

/-- pem.Decode: skips data preceding the first well-formed block; returns
the block and the remaining input after it, or none when no block occurs
in the rest of the input. -/
def pemDecode : List Seg → Option (PEMBlock × List Seg)
  | [] => none
  | .garbage :: rest => pemDecode rest
  | .block b :: rest => some (b, rest)

def rsaPrivateKeyPEMBlockType : String := "RSA PRIVATE KEY"

def certificatePEMBlockType : String := "CERTIFICATE"

/-- The error ReadPEMCertificatesFile reports for a missing, malformed or
mistyped block (the spec's ArmorDecodeError). -/
def certArmorErr : String := "failed to decode PEM block containing certificate"

/-- The scanning loop of ReadPEMCertificatesFile: each iteration runs
pem.Decode on the remaining input, fails if no block is found or its type
is not CERTIFICATE, appends the block's bytes, and stops when the
remaining input is empty. pem.Decode's skipping of data before a block is
inlined here (the garbage case); the lemma scanCertBlocks_decode_step
below recovers the loop body exactly as the source phrases it, one
pem.Decode call per iteration. -/
def scanCertBlocks : List Seg → List Nat → Except String (List Nat)
  | [], _ => .error certArmorErr
  | .garbage :: rest, acc => scanCertBlocks rest acc
  | .block b :: rest, acc =>
    if b.typ ≠ certificatePEMBlockType then .error certArmorErr
    else if rest = [] then .ok (acc ++ b.bytes)
    else scanCertBlocks rest (acc ++ b.bytes)

/-- One iteration of the ReadPEMCertificatesFile loop as written in the
source: pem.Decode the remaining input; fail on a nil or non-CERTIFICATE
block; append the payload; stop when nothing remains. -/
theorem scanCertBlocks_decode_step (segs : List Seg) (acc : List Nat) :
    scanCertBlocks segs acc =
      match pemDecode segs with
      | none => .error certArmorErr
      | some (b, rest) =>
        if b.typ ≠ certificatePEMBlockType then .error certArmorErr
        else if rest = [] then .ok (acc ++ b.bytes)
        else scanCertBlocks rest (acc ++ b.bytes) := by
  induction segs generalizing acc with
  | nil => rfl
  | cons s rest ih =>
    cases s with
    | garbage => simpa [pemDecode, scanCertBlocks] using ih acc
    | block b => rfl

/-- ReadPEMCertificatesFile: scan all armored blocks, concatenate their
payloads, then parse the combined buffer with x509.ParseCertificates
(a collaborator, passed as parseCertificates). -/
def ReadPEMCertificatesFile
    (parseCertificates : List Nat → Except String (List Certificate))
    (pemData : List Seg) : Except String (List Certificate) :=
  match scanCertBlocks pemData [] with
  | .error e => .error e
  | .ok asn1data => parseCertificates asn1data

/-- x509.IsEncryptedPEMBlock: an encrypted block carries a DEK-Info
header. -/
def IsEncryptedPEMBlock (b : PEMBlock) : Bool :=
  b.headers.any (fun h => h.1 = "DEK-Info")

/-- The collaborators of the RSA key block reader/writer:
x509.MarshalPKCS1PrivateKey, x509.ParsePKCS1PrivateKey,
x509.EncryptPEMBlock (type, DER payload, password; randomness and the
3DES cipher are internal to it) and x509.DecryptPEMBlock. -/
structure KeyCodecEnv where
  marshalPKCS1 : RSAKey → List Nat
  parsePKCS1 : List Nat → Except String RSAKey
  encryptPEMBlock : String → List Nat → List Nat → Except String PEMBlock
  decryptPEMBlock : PEMBlock → List Nat → Except String (List Nat)

def pemDecodeFailedErr : String := "PEM decode failed"

/-- The spec's MissingPassphraseError. -/
def missingPassphraseErr : String := "no supplied password for encrypted PEM"

/-- The spec's UnexpectedPassphraseError. -/
def unexpectedPassphraseErr : String := "supplied PEM password, but not encrypted"

/-- ReadEncryptedPEMRSAKeyFile: decode the first block (the rest of the
input is ignored by the Go code), require the RSA PRIVATE KEY type, then
match the block's encryption state against the supplied password
(none models a nil Go byte slice). -/
def ReadEncryptedPEMRSAKeyFile (env : KeyCodecEnv) (pemData : List Seg)
    (password : Option (List Nat)) : Except String RSAKey :=
  match pemDecode pemData with
  | none => .error pemDecodeFailedErr
  | some (pemBlock, _) =>
    if pemBlock.typ ≠ rsaPrivateKeyPEMBlockType then
      .error ("expecting PEM type of " ++ rsaPrivateKeyPEMBlockType ++
        ", but got " ++ pemBlock.typ)
    else if IsEncryptedPEMBlock pemBlock then
      match password with
      | none => .error missingPassphraseErr
      | some pw =>
        match env.decryptPEMBlock pemBlock pw with
        | .error e => .error e
        | .ok derBytes => env.parsePKCS1 derBytes
    else
      match password with
      | some _ => .error unexpectedPassphraseErr
      | none => env.parsePKCS1 pemBlock.bytes

/-- ReadPEMRSAKeyFile delegates with a nil password. -/
def ReadPEMRSAKeyFile (env : KeyCodecEnv) (pemData : List Seg) :
    Except String RSAKey :=
  ReadEncryptedPEMRSAKeyFile env pemData none

/-- WriteEncryptedPEMRSAKeyFile: marshal the key, encrypt it into an
armored block via x509.EncryptPEMBlock with the RSA PRIVATE KEY type and
the 3DES cipher, and emit that block (pem.Encode writes exactly this
block; file persistence is the out-of-scope I/O collaborator, so the
block written is the result). -/
def WriteEncryptedPEMRSAKeyFile (env : KeyCodecEnv) (key : RSAKey)
    (password : List Nat) : Except String PEMBlock :=
  match env.encryptPEMBlock rsaPrivateKeyPEMBlockType
      (env.marshalPKCS1 key) password with
  | .error e => .error e
  | .ok encPemBlock => .ok encPemBlock

/- ---------------------------------------------------------------------
   TopicExtractor (TopicFromCert)
   --------------------------------------------------------------------- -/

/-- The UserID attribute object identifier 0.9.2342.19200300.100.1.1. -/
def oidASN1UserID : List Nat := [0, 9, 2342, 19200300, 100, 1, 1]

/-- The spec's TopicNotFoundError. -/
def topicNotFoundErr : String :=
  "could not find Push Topic (UserID OID) in certificate"

/-- The spec's InvalidTopicError, carrying the offending value (the empty
string when the attribute value was not a Go string). -/
def invalidTopicErr (uid : String) : String :=
  "invalid Push Topic (UserID OID) in certificate. Must start with " ++
    "\x27com.apple.mgmt\x27, was: " ++ uid

/-- The range-over-Subject.Names loop of TopicFromCert. For the first
attribute whose OID is the UserID OID the loop returns: the value itself
when it is a string with the com.apple.mgmt prefix, and the invalid-topic
error otherwise (with uid the empty string when the type assertion to
string failed). -/
def topicScan : List AttributeTypeAndValue → Except String String
  | [] => .error topicNotFoundErr
  | v :: rest =>
    if v.typ = oidASN1UserID then
      match v.value with
      | .text uid =>
        if stringStartsWith uid "com.apple.mgmt" then .ok uid
        else .error (invalidTopicErr uid)
      | .nonText => .error (invalidTopicErr "")
    else topicScan rest

/-- TopicFromCert extracts the push certificate topic from the provided
certificate by scanning cert.Subject.Names. -/
def TopicFromCert (cert : Certificate) : Except String String :=
  topicScan cert.subjectNames

/- ---------------------------------------------------------------------
   Concrete collaborator instances and inputs, used to evaluate the
   operations on closed data.
   --------------------------------------------------------------------- -/

/-- A generation environment in which every collaborator succeeds and the
DER encode/parse pair is the identity on the fields it transports. -/
def genEnvOk : GenEnv :=
  { generateKey := .ok 3
    generateSerial := .ok 7
    createCertificate := fun t _ => .ok t
    parseCertificate := fun b =>
      .ok { serialNumber := b.serialNumber
            subjectCommonName := b.subjectCommonName
            notBefore := b.notBefore
            notAfter := b.notAfter
            subjectNames := [] } }

/-- A generation environment in which the key is generated but the random
serial-number draw fails (the entropy source reports EOF). -/
def genEnvSerialFail : GenEnv :=
  { genEnvOk with generateSerial := .error "EOF" }

/-- An envelope that fails with a validity-window error at time 1 and
verifies at every other instant. -/
def p7ValidityRetry : PKCS7 :=
  { verifyWithChainAtTime := fun _ t =>
      if t = 1 then some "signature is outside of certificate validity window"
      else none }

/-- An envelope that validates only when a truststore is supplied and
fails chain validation against the nil truststore. -/
def p7Anchored : PKCS7 :=
  { verifyWithChainAtTime := fun ts _ =>
      match ts with
      | some _ => none
      | none => some "x509: certificate signed by unknown authority" }

/-- An envelope that fails chain validation at every truststore with the
same error p7Anchored reports at the nil truststore. -/
def p7NilFails : PKCS7 :=
  { verifyWithChainAtTime := fun _ _ =>
      some "x509: certificate signed by unknown authority" }

/-- A key codec whose collaborators are the identity-style cipher: marshal
is the singleton byte string, encryption stamps the encrypted-PEM headers
and prepends the password, decryption strips a matching password and
rejects any other. -/
def keyEnvDemo : KeyCodecEnv :=
  { marshalPKCS1 := fun k => [k]
    parsePKCS1 := fun der =>
      match der with
      | [k] => .ok k
      | _ => .error "asn1 structural parse failure"
    encryptPEMBlock := fun t der pw =>
      .ok { typ := t
            headers := [("Proc-Type", "4,ENCRYPTED"), ("DEK-Info", "DES-EDE3-CBC,00")]
            bytes := pw ++ der }
    decryptPEMBlock := fun b pw =>
      if b.bytes.take pw.length = pw then .ok (b.bytes.drop pw.length)
      else .error "x509: decryption password incorrect" }

/-- The encrypted armored block keyEnvDemo produces for key 5 under
password [1]. -/
def blkDemo : PEMBlock :=
  { typ := rsaPrivateKeyPEMBlockType
    headers := [("Proc-Type", "4,ENCRYPTED"), ("DEK-Info", "DES-EDE3-CBC,00")]
    bytes := [1, 5] }

/-- An unencrypted RSA PRIVATE KEY armored block. -/
def plainBlockDemo : PEMBlock :=
  { typ := rsaPrivateKeyPEMBlockType
    headers := []
    bytes := [5] }

/-- A certificate parser collaborator that accepts any buffer. -/
def parseCertsDemo : List Nat → Except String (List Certificate) :=
  fun _ => .ok []

/-- A subject attribute that does not carry the UserID OID
(2.5.4.3, commonName). -/
def attrOther : AttributeTypeAndValue :=
  { typ := [2, 5, 4, 3], value := .text "name" }

/-- A certificate value with the given subject attribute list. -/
def certWithNames (ns : List AttributeTypeAndValue) : Certificate :=
  { serialNumber := 7
    subjectCommonName := "x"
    notBefore := 0
    notAfter := 1
    subjectNames := ns }

/- =====================================================================
   Theorems
   ===================================================================== -/

/-- C1: for every signed envelope and every MaxSkew configuration, Verify
first attempts validation at reference time now + MaxSkew; if that
attempt fails with a validity-window failure it retries exactly once at
now - MaxSkew and returns that second attempt's outcome as final; if the
first attempt fails for any other reason that failure is returned
immediately with no retry; if the first attempt succeeds, Verify
succeeds. (now1, now2 are the clock readings of the two attempts.) -/
theorem verify_skew_retry_policy (v : PKCS7Verifier) (p7 : PKCS7)
    (now1 now2 : Int) :
    (p7.verifyWithChainAtTime none (now1 + v.MaxSkew) = none →
      v.Verify p7 now1 now2 = none) ∧
    (∀ e, p7.verifyWithChainAtTime none (now1 + v.MaxSkew) = some e →
      stringContains e validityWindowFragment = true →
      v.Verify p7 now1 now2 =
        p7.verifyWithChainAtTime none (now2 - v.MaxSkew)) ∧
    (∀ e, p7.verifyWithChainAtTime none (now1 + v.MaxSkew) = some e →
      stringContains e validityWindowFragment = false →
      v.Verify p7 now1 now2 = some e) := by
  refine ⟨fun h => ?_, fun e h hc => ?_, fun e h hc => ?_⟩
  · simp [PKCS7Verifier.Verify, h]
  · simp [PKCS7Verifier.Verify, h, hc]
  · simp [PKCS7Verifier.Verify, h, hc]

/-- Witness for C1: an envelope failing with a validity-window error on
the first attempt is retried, and the retry's outcome (success) is
returned. -/
theorem verify_skew_retry_policy_witness :
    PKCS7Verifier.Verify ⟨1⟩ p7ValidityRetry 0 0 =
      p7ValidityRetry.verifyWithChainAtTime none (0 - 1) :=
  (verify_skew_retry_policy ⟨1⟩ p7ValidityRetry 0 0).2.1
    "signature is outside of certificate validity window"
    (by decide) (by decide)

/-- C4 (amended): Verify takes only the envelope; every chain validation
it performs uses the nil truststore, so its outcome depends only on the
envelope's behaviour at the nil truststore — no caller-supplied trust
anchors can influence it. -/
theorem verify_depends_only_on_nil_truststore (v : PKCS7Verifier)
    (p q : PKCS7) (now1 now2 : Int)
    (h : ∀ t, p.verifyWithChainAtTime none t =
      q.verifyWithChainAtTime none t) :
    v.Verify p now1 now2 = v.Verify q now1 now2 := by
  simp [PKCS7Verifier.Verify, h]

/-- Witness for the amended C4: two envelopes that agree at the nil
truststore (but differ when anchors are supplied) verify identically. -/
theorem verify_depends_only_on_nil_truststore_witness :
    PKCS7Verifier.Verify ⟨0⟩ p7NilFails 0 0 =
      PKCS7Verifier.Verify ⟨0⟩ p7Anchored 0 0 :=
  verify_depends_only_on_nil_truststore ⟨0⟩ p7NilFails p7Anchored 0 0
    (fun _ => rfl)

/-- Counterexample to C4 as stated: an envelope whose chain validates
against a supplied truststore nevertheless fails Verify with the
unknown-authority error, because Verify offers no way to supply trust
anchors and always validates against the nil truststore. -/
theorem verify_cannot_use_supplied_anchors :
    p7Anchored.verifyWithChainAtTime (some [1]) 0 = none ∧
    PKCS7Verifier.Verify ⟨0⟩ p7Anchored 0 0 =
      some "x509: certificate signed by unknown authority" := by
  exact ⟨rfl, by decide⟩

/-- Every x509-day duration whose magnitude stays below the int64
overflow threshold is computed exactly. -/
theorem durationDays_eq (days : Int)
    (hlo : -106751 ≤ days) (hhi : days ≤ 106751) :
    durationDays days = days * 86400000000000 := by
  unfold durationDays
  have h1 : wrap64 (days * 24) = days * 24 := by
    apply wrap64_eq_self <;> linarith
  rw [h1]
  have h2 : days * 24 * 3600000000000 = days * 86400000000000 := by ring
  rw [h2]
  apply wrap64_eq_self <;> linarith

/-- Inversion for a generation run that returned a certificate: every
collaborator succeeded, and the certificate is the parse of the
create-certificate output for the template the source builds. -/
theorem keypair_cert_inversion (env : GenEnv) (cn : String)
    (days timeNow : Int) (c : Certificate)
    (hres : (SimpleSelfSignedRSAKeypair env cn days timeNow).2.1 = some c) :
    ∃ key serial certBytes,
      env.generateKey = .ok key ∧ env.generateSerial = .ok serial ∧
      env.createCertificate
        { serialNumber := serial
          subjectCommonName := cn
          notBefore := timeNow
          notAfter := timeNow + durationDays days
          keyUsage := keyUsageKeyEnciphermentDigitalSignature
          extKeyUsage := [extKeyUsageServerAuth]
          basicConstraintsValid := true
          dnsNames := [cn] } key = .ok certBytes ∧
      env.parseCertificate certBytes = .ok c := by
  unfold SimpleSelfSignedRSAKeypair at hres
  cases hk : env.generateKey with
  | error e => rw [hk] at hres; simp at hres
  | ok key =>
    rw [hk] at hres
    cases hs : env.generateSerial with
    | error e => rw [hs] at hres; simp at hres
    | ok serial =>
      rw [hs] at hres
      simp only at hres
      cases hc : env.createCertificate
          { serialNumber := serial
            subjectCommonName := cn
            notBefore := timeNow
            notAfter := timeNow + durationDays days
            keyUsage := keyUsageKeyEnciphermentDigitalSignature
            extKeyUsage := [extKeyUsageServerAuth]
            basicConstraintsValid := true
            dnsNames := [cn] } key with
      | error e => rw [hc] at hres; simp at hres
      | ok certBytes =>
        rw [hc] at hres
        dsimp only at hres
        cases hp : env.parseCertificate certBytes with
        | error e => rw [hp] at hres; simp at hres
        | ok cert =>
          rw [hp] at hres
          simp only [Option.some.injEq] at hres
          subst hres
          exact ⟨key, serial, certBytes, rfl, rfl, hc, hp⟩

/-- C2 (amended): for every generation run that returns a certificate,
with 1 ≤ validityDays ≤ 106751 (so validityDays days fits in the 64-bit
nanosecond duration) and a DER encode/parse pair that transports the
validity fields, the certificate's NotAfter strictly exceeds its
NotBefore. -/
theorem notAfter_gt_notBefore_of_bounded_days (env : GenEnv) (cn : String)
    (days timeNow : Int) (c : Certificate)
    (hlo : 1 ≤ days) (hhi : days ≤ 106751)
    (hcreate : ∀ t k b, env.createCertificate t k = .ok b → b = t)
    (hparse : ∀ b cc, env.parseCertificate b = .ok cc →
      cc.notBefore = b.notBefore ∧ cc.notAfter = b.notAfter)
    (hres : (SimpleSelfSignedRSAKeypair env cn days timeNow).2.1 = some c) :
    c.notBefore < c.notAfter := by
  obtain ⟨key, serial, certBytes, _, _, hc, hp⟩ :=
    keypair_cert_inversion env cn days timeNow c hres
  obtain ⟨hb, ha⟩ := hparse _ _ hp
  rw [hcreate _ _ _ hc] at hb ha
  rw [hb, ha]
  simp only
  rw [durationDays_eq days (by linarith) hhi]
  linarith

/-- Witness for the amended C2: a 1-day certificate generated at time 0
has NotBefore 0 and NotAfter one day later. -/
theorem notAfter_gt_notBefore_witness :
    (SimpleSelfSignedRSAKeypair genEnvOk "x" 1 0).2.1 =
      some { serialNumber := 7, subjectCommonName := "x", notBefore := 0,
             notAfter := 86400000000000, subjectNames := [] } ∧
    (0 : Int) < 86400000000000 := by
  refine ⟨by decide, ?_⟩
  have h := notAfter_gt_notBefore_of_bounded_days genEnvOk "x" 1 0
    { serialNumber := 7, subjectCommonName := "x", notBefore := 0,
      notAfter := 86400000000000, subjectNames := [] }
    (by decide) (by decide)
    (by intro t k b hb; injection hb with hb; exact hb.symm)
    (by intro b cc hb; injection hb with hb; rw [← hb]; exact ⟨rfl, rfl⟩)
    (by decide)
  exact h

/-- Counterexample to C2 as stated: generation succeeds for
validityDays = 0, and the returned certificate has NotAfter equal to (not
strictly above) NotBefore. -/
theorem generated_zero_days_cex :
    (SimpleSelfSignedRSAKeypair genEnvOk "x" 0 0).2.1 =
      some { serialNumber := 7, subjectCommonName := "x", notBefore := 0,
             notAfter := 0, subjectNames := [] } ∧
    ¬ ((0 : Int) < 0) := by
  exact ⟨by decide, by decide⟩

/-- C3 (amended): whenever generation fails, no usable certificate is
returned — the certificate output is nil alongside the error; the key
output, however, may still hold the already-generated key pair. -/
theorem generate_error_no_certificate (env : GenEnv) (cn : String)
    (days timeNow : Int) (e : String)
    (hres : (SimpleSelfSignedRSAKeypair env cn days timeNow).2.2 = some e) :
    (SimpleSelfSignedRSAKeypair env cn days timeNow).2.1 = none := by
  unfold SimpleSelfSignedRSAKeypair at hres ⊢
  cases hk : env.generateKey with
  | error e2 => rfl
  | ok key =>
    rw [hk] at hres
    dsimp only at hres ⊢
    cases hs : env.generateSerial with
    | error e2 => rfl
    | ok serial =>
      rw [hs] at hres
      dsimp only at hres ⊢
      cases hc : env.createCertificate
          { serialNumber := serial
            subjectCommonName := cn
            notBefore := timeNow
            notAfter := timeNow + durationDays days
            keyUsage := keyUsageKeyEnciphermentDigitalSignature
            extKeyUsage := [extKeyUsageServerAuth]
            basicConstraintsValid := true
            dnsNames := [cn] } key with
      | error e2 => rfl
      | ok certBytes =>
        rw [hc] at hres
        dsimp only at hres ⊢
        cases hp : env.parseCertificate certBytes with
        | error e2 => rfl
        | ok cert => rw [hp] at hres; simp at hres

/-- Witness for the amended C3: when the serial-number draw fails, the
certificate output is nil. -/
theorem generate_error_no_certificate_witness :
    (SimpleSelfSignedRSAKeypair genEnvSerialFail "x" 1 0).2.1 = none :=
  generate_error_no_certificate genEnvSerialFail "x" 1 0 "EOF" (by decide)

/-- Counterexample to C3 as stated: when the serial-number draw fails
after key generation succeeded, the error is returned together with the
usable, already-generated key pair in the key output. -/
theorem generate_partial_key_cex :
    (SimpleSelfSignedRSAKeypair genEnvSerialFail "x" 1 0).1 = some 3 ∧
    (SimpleSelfSignedRSAKeypair genEnvSerialFail "x" 1 0).2.2 = some "EOF" := by
  exact ⟨by decide, by decide⟩

/-- C7 (amended): for every generation run that returns a certificate,
with |validityDays| ≤ 106751 (so validityDays days fits in the 64-bit
nanosecond duration) and a DER encode/parse pair that transports the
validity fields, NotAfter − NotBefore equals exactly validityDays times
24 hours, and NotBefore is the generation-time clock reading. -/
theorem validity_duration_exact (env : GenEnv) (cn : String)
    (days timeNow : Int) (c : Certificate)
    (hlo : -106751 ≤ days) (hhi : days ≤ 106751)
    (hcreate : ∀ t k b, env.createCertificate t k = .ok b → b = t)
    (hparse : ∀ b cc, env.parseCertificate b = .ok cc →
      cc.notBefore = b.notBefore ∧ cc.notAfter = b.notAfter)
    (hres : (SimpleSelfSignedRSAKeypair env cn days timeNow).2.1 = some c) :
    c.notAfter - c.notBefore = days * 86400000000000 ∧
    c.notBefore = timeNow := by
  obtain ⟨key, serial, certBytes, _, _, hc, hp⟩ :=
    keypair_cert_inversion env cn days timeNow c hres
  obtain ⟨hb, ha⟩ := hparse _ _ hp
  rw [hcreate _ _ _ hc] at hb ha
  rw [hb, ha]
  simp only
  rw [durationDays_eq days hlo hhi]
  constructor
  · ring
  · trivial

/-- Witness for the amended C7: a 2-day certificate generated at time 5
spans exactly 2 times 24 hours and starts at 5. -/
theorem validity_duration_exact_witness :
    (SimpleSelfSignedRSAKeypair genEnvOk "x" 2 5).2.1 =
      some { serialNumber := 7, subjectCommonName := "x", notBefore := 5,
             notAfter := 172800000000005, subjectNames := [] } ∧
    (172800000000005 - 5 : Int) = 2 * 86400000000000 ∧ (5 : Int) = 5 := by
  refine ⟨by decide, ?_⟩
  exact validity_duration_exact genEnvOk "x" 2 5
    { serialNumber := 7, subjectCommonName := "x", notBefore := 5,
      notAfter := 172800000000005, subjectNames := [] }
    (by decide) (by decide)
    (by intro t k b hb; injection hb with hb; exact hb.symm)
    (by intro b cc hb; injection hb with hb; rw [← hb]; exact ⟨rfl, rfl⟩)
    (by decide)

/-- Counterexample to C7 as stated: at validityDays = 106752 the Go
duration multiplication overflows int64, generation still succeeds, and
the certificate's NotAfter − NotBefore is a large negative duration, not
106752 days. -/
theorem validity_duration_overflow_cex :
    (SimpleSelfSignedRSAKeypair genEnvOk "x" 106752 0).2.1 =
      some { serialNumber := 7, subjectCommonName := "x", notBefore := 0,
             notAfter := -9223371273709551616, subjectNames := [] } ∧
    ((-9223371273709551616 : Int) - 0 ≠ 106752 * 86400000000000) := by
  exact ⟨by decide, by decide⟩

/-- C5: for every key-block input (an input whose first decoded block is
an RSA PRIVATE KEY block), decoding an encrypted block with no passphrase
always fails with MissingPassphraseError, and decoding an unencrypted
block while supplying a passphrase always fails with
UnexpectedPassphraseError; both mismatch cases return an error, never a
key. -/
theorem key_decode_passphrase_mismatch (env : KeyCodecEnv)
    (segs : List Seg) (blk : PEMBlock) (rest : List Seg)
    (hdec : pemDecode segs = some (blk, rest))
    (htyp : blk.typ = rsaPrivateKeyPEMBlockType) :
    (IsEncryptedPEMBlock blk = true →
      ReadEncryptedPEMRSAKeyFile env segs none =
        .error missingPassphraseErr) ∧
    (IsEncryptedPEMBlock blk = false → ∀ pw,
      ReadEncryptedPEMRSAKeyFile env segs (some pw) =
        .error unexpectedPassphraseErr) := by
  constructor
  · intro henc
    simp [ReadEncryptedPEMRSAKeyFile, hdec, htyp, henc]
  · intro henc pw
    simp [ReadEncryptedPEMRSAKeyFile, hdec, htyp, henc]

/-- Witness for C5: an encrypted block read without a password, and a
plain block read with one, each fail with the respective error. -/
theorem key_decode_passphrase_mismatch_witness :
    ReadEncryptedPEMRSAKeyFile keyEnvDemo [Seg.block blkDemo] none =
      .error missingPassphraseErr ∧
    ReadEncryptedPEMRSAKeyFile keyEnvDemo [Seg.block plainBlockDemo]
      (some [1]) = .error unexpectedPassphraseErr :=
  ⟨(key_decode_passphrase_mismatch keyEnvDemo [Seg.block blkDemo] blkDemo []
      (by decide) (by decide)).1 (by decide),
   (key_decode_passphrase_mismatch keyEnvDemo [Seg.block plainBlockDemo]
      plainBlockDemo [] (by decide) (by decide)).2 (by decide) [1]⟩

/-- C8: under the collaborator contracts of the PEM cipher and the PKCS#1
codec (decrypting with the encryption passphrase restores the marshalled
key, parse inverts marshal, decrypting with a different passphrase
fails), encoding a key with a passphrase and decoding the produced block
with the same passphrase yields the original key; decoding it with no
passphrase fails with MissingPassphraseError; decoding it with the wrong
passphrase fails with the decryption error (the spec's KeyDecodeError). -/
theorem key_encrypt_roundtrip (env : KeyCodecEnv) (key : RSAKey)
    (pw pw2 : List Nat) (blk : PEMBlock) (e : String)
    (henc : WriteEncryptedPEMRSAKeyFile env key pw = .ok blk)
    (htyp : blk.typ = rsaPrivateKeyPEMBlockType)
    (hencd : IsEncryptedPEMBlock blk = true)
    (hdec : env.decryptPEMBlock blk pw = .ok (env.marshalPKCS1 key))
    (hparse : env.parsePKCS1 (env.marshalPKCS1 key) = .ok key)
    (hwrong : env.decryptPEMBlock blk pw2 = .error e) :
    ReadEncryptedPEMRSAKeyFile env [Seg.block blk] (some pw) = .ok key ∧
    ReadEncryptedPEMRSAKeyFile env [Seg.block blk] none =
      .error missingPassphraseErr ∧
    ReadEncryptedPEMRSAKeyFile env [Seg.block blk] (some pw2) =
      .error e := by
  refine ⟨?_, ?_, ?_⟩ <;>
    simp [ReadEncryptedPEMRSAKeyFile, pemDecode, htyp, hencd, hdec,
      hparse, hwrong]

/-- Witness for C8: the block keyEnvDemo writes for key 5 under password
[1] reads back as 5 with [1], fails missing-passphrase with none, and
fails decryption with [2]. -/
theorem key_encrypt_roundtrip_witness :
    ReadEncryptedPEMRSAKeyFile keyEnvDemo [Seg.block blkDemo] (some [1]) =
      .ok 5 ∧
    ReadEncryptedPEMRSAKeyFile keyEnvDemo [Seg.block blkDemo] none =
      .error missingPassphraseErr ∧
    ReadEncryptedPEMRSAKeyFile keyEnvDemo [Seg.block blkDemo] (some [2]) =
      .error "x509: decryption password incorrect" :=
  key_encrypt_roundtrip keyEnvDemo 5 [1] [2] blkDemo
    "x509: decryption password incorrect"
    rfl (by decide) (by decide) rfl rfl rfl

/-- An armor-decode failure of the scanning loop does not depend on the
bytes accumulated so far. -/
theorem scanCertBlocks_error_acc (segs : List Seg) :
    ∀ acc acc2, scanCertBlocks segs acc = .error certArmorErr →
      scanCertBlocks segs acc2 = .error certArmorErr := by
  induction segs with
  | nil => intro acc acc2 _; rfl
  | cons s rest ih =>
    intro acc acc2 h
    cases s with
    | garbage =>
      simp only [scanCertBlocks] at h ⊢
      exact ih acc acc2 h
    | block b =>
      simp only [scanCertBlocks] at h ⊢
      by_cases ht : b.typ ≠ certificatePEMBlockType
      · simp [ht]
      · simp only [ht, if_false] at h ⊢
        by_cases hr : rest = []
        · simp [hr] at h
        · simp only [hr, if_false] at h ⊢
          exact ih _ _ h

/-- C6: the certificate scanner rejects its input with ArmorDecodeError
as soon as the armored-block sequence goes wrong before end of input:
(1) a valid CERTIFICATE block followed by non-PEM garbage is rejected
rather than yielding the scanned certificate; (2) an input in which
pem.Decode finds no block is rejected; (3) a decoded block of any type
other than CERTIFICATE is rejected; (4) after a CERTIFICATE block with
input remaining, a failure of the rest of the scan is the whole result
(the error propagates regardless of the certificate parser supplied). -/
theorem cert_scan_strict :
    (∀ parse headers bytes,
      ReadPEMCertificatesFile parse
        [Seg.block ⟨certificatePEMBlockType, headers, bytes⟩, Seg.garbage] =
        .error certArmorErr) ∧
    (∀ parse segs, pemDecode segs = none →
      ReadPEMCertificatesFile parse segs = .error certArmorErr) ∧
    (∀ parse segs b rest, pemDecode segs = some (b, rest) →
      b.typ ≠ certificatePEMBlockType →
      ReadPEMCertificatesFile parse segs = .error certArmorErr) ∧
    (∀ parse segs b rest, pemDecode segs = some (b, rest) →
      b.typ = certificatePEMBlockType → rest ≠ [] →
      scanCertBlocks rest [] = .error certArmorErr →
      ReadPEMCertificatesFile parse segs = .error certArmorErr) := by
  refine ⟨fun parse headers bytes => ?_, fun parse segs h => ?_,
    fun parse segs b rest h ht => ?_, fun parse segs b rest h ht hr hs => ?_⟩
  · simp [ReadPEMCertificatesFile, scanCertBlocks, certificatePEMBlockType]
  · rw [ReadPEMCertificatesFile, scanCertBlocks_decode_step, h]
  · rw [ReadPEMCertificatesFile, scanCertBlocks_decode_step, h]
    simp [ht]
  · rw [ReadPEMCertificatesFile, scanCertBlocks_decode_step, h]
    dsimp only
    rw [scanCertBlocks_error_acc rest [] _ hs]
    simp [ht, hr]

/-- Witness for C6: an input with no decodable block is rejected with
ArmorDecodeError. -/
theorem cert_scan_strict_witness :
    ReadPEMCertificatesFile parseCertsDemo [Seg.garbage] =
      .error certArmorErr :=
  cert_scan_strict.2.1 parseCertsDemo [Seg.garbage] (by decide)

/-- The scan skips every attribute in a run that carries no UserID OID. -/
theorem topicScan_skip (pre : List AttributeTypeAndValue)
    (tail : List AttributeTypeAndValue)
    (hpre : ∀ a, a ∈ pre → a.typ ≠ oidASN1UserID) :
    topicScan (pre ++ tail) = topicScan tail := by
  induction pre with
  | nil => rfl
  | cons a pre ih =>
    have ha : a.typ ≠ oidASN1UserID := hpre a (List.mem_cons_self a pre)
    simp only [List.cons_append, topicScan, ha, if_neg]
    exact ih (fun x hx => hpre x (List.mem_cons_of_mem a hx))

/-- C9: TopicFromCert scans the subject attribute list in stored order
and considers only the first attribute whose OID equals the UserID
constant: a text value with the com.apple.mgmt prefix is returned
verbatim; a text value failing the prefix check yields InvalidTopicError
carrying the offending value; if no attribute has the UserID OID the
result is TopicNotFoundError. The attributes after the first match
(post) never influence the outcome. -/
theorem topic_extraction_first_match (cert : Certificate) :
    ((∀ a, a ∈ cert.subjectNames → a.typ ≠ oidASN1UserID) →
      TopicFromCert cert = .error topicNotFoundErr) ∧
    (∀ pre v post, cert.subjectNames = pre ++ v :: post →
      (∀ a, a ∈ pre → a.typ ≠ oidASN1UserID) → v.typ = oidASN1UserID →
      ∀ uid, v.value = .text uid →
        (stringStartsWith uid "com.apple.mgmt" = true →
          TopicFromCert cert = .ok uid) ∧
        (stringStartsWith uid "com.apple.mgmt" = false →
          TopicFromCert cert = .error (invalidTopicErr uid))) := by
  constructor
  · intro hall
    unfold TopicFromCert
    have h0 : cert.subjectNames = cert.subjectNames ++ [] := by simp
    rw [h0, topicScan_skip cert.subjectNames [] hall]
    rfl
  · intro pre v post hn hpre hv uid huid
    unfold TopicFromCert
    rw [hn, topicScan_skip pre (v :: post) hpre]
    simp only [topicScan, hv, if_pos, huid]
    constructor
    · intro hst; simp [hst]
    · intro hst; simp [hst]

/-- Witness for C9: a certificate whose UserID attribute (after one
non-matching attribute) is com.apple.mgmt.example yields that topic. -/
theorem topic_extraction_first_match_witness :
    TopicFromCert (certWithNames
      [attrOther, ⟨oidASN1UserID, .text "com.apple.mgmt.example"⟩]) =
      .ok "com.apple.mgmt.example" :=
  ((topic_extraction_first_match (certWithNames
      [attrOther, ⟨oidASN1UserID, .text "com.apple.mgmt.example"⟩])).2
    [attrOther] ⟨oidASN1UserID, .text "com.apple.mgmt.example"⟩ []
    (by decide)
    (by intro a ha; simp only [List.mem_singleton] at ha; rw [ha]; decide)
    rfl "com.apple.mgmt.example" rfl).1 (by decide)

/-- C10: when the first subject attribute with the UserID OID has a
non-string value, TopicFromCert fails with InvalidTopicError reporting an
empty offending value — not with TopicNotFoundError — and scanning does
not continue past it (the outcome holds for every post). -/
theorem topic_nontext_invalid (cert : Certificate)
    (pre : List AttributeTypeAndValue) (v : AttributeTypeAndValue)
    (post : List AttributeTypeAndValue)
    (hn : cert.subjectNames = pre ++ v :: post)
    (hpre : ∀ a, a ∈ pre → a.typ ≠ oidASN1UserID)
    (hv : v.typ = oidASN1UserID) (hval : v.value = .nonText) :
    TopicFromCert cert = .error (invalidTopicErr "") ∧
    TopicFromCert cert ≠ .error topicNotFoundErr := by
  have h : TopicFromCert cert = .error (invalidTopicErr "") := by
    unfold TopicFromCert
    rw [hn, topicScan_skip pre (v :: post) hpre]
    simp [topicScan, hv, hval]
  refine ⟨h, ?_⟩
  rw [h]
  intro hcontra
  injection hcontra with hcontra
  exact absurd hcontra (by decide)

/-- Witness for C10: a certificate whose only subject attribute has the
UserID OID but a non-string value fails with the invalid-topic error for
the empty value. -/
theorem topic_nontext_invalid_witness :
    TopicFromCert (certWithNames [⟨oidASN1UserID, .nonText⟩]) =
      .error (invalidTopicErr "") ∧
    TopicFromCert (certWithNames [⟨oidASN1UserID, .nonText⟩]) ≠
      .error topicNotFoundErr :=
  topic_nontext_invalid (certWithNames [⟨oidASN1UserID, .nonText⟩])
    [] ⟨oidASN1UserID, .nonText⟩ [] rfl
    (by intro a ha; exact absurd ha (List.not_mem_nil a)) rfl rfl

end Micromdm
